import Mathlib

/-!
Shallow embedding of the reverse-ssh tunnel registry and lifecycle
orchestrator (`src/ssh_util/reverse_ssh_registry.py`,
`src/ssh_util/reverse_ssh.py`, `src/main.py`).

The registry file is a JSON object mapping bind-port strings to tunnel
metadata.  Disk state is modelled at the granularity the code observes:
the file is absent, holds well-formed JSON of some mapping, or is
unparsable.  Process state is modelled as the list of live processes with
their pids and full command lines; `pgrep -f PATTERN` is substring search
of the pattern in each command line.
-/

set_option autoImplicit false

/-- Metadata stored per tunnel entry: the value dict written by
`register_tunnel` (`reverse_ssh_registry.py`, lines 72-78). -/
structure TunnelMeta where
  remote_host : String
  remote_user : String
deriving DecidableEq

/-- The in-memory registry: the JSON object as an association list in file
order, keys are bind-port strings (Python preserves dict insertion order). -/
abbrev Registry := List (String × TunnelMeta)

/-- Python `d[k]` lookup on the registry dict (as an Option). -/
def dictGet (r : Registry) (k : String) : Option TunnelMeta :=
  (r.find? fun e => e.1 == k).map (fun e => e.2)

/-- Python `d[k] = v`: overwrite in place when the key exists, else append. -/
def dictInsert (r : Registry) (k : String) (v : TunnelMeta) : Registry :=
  if r.any (fun e => e.1 == k) then r.map (fun e => if e.1 == k then (k, v) else e)
  else r ++ [(k, v)]

/-- Python `if k in d: del d[k]`. -/
def dictErase (r : Registry) (k : String) : Registry :=
  r.filter fun e => e.1 != k

/-- On-disk state of the registry file, at the granularity `json.load` /
`json.dump` observe: absent, well-formed JSON of a mapping, or unparsable. -/
inductive FileContent where
  | absent
  | json (r : Registry)
  | corrupt
deriving DecidableEq

/-- `ReverseSSHRegistry._read_registry` (lines 35-47): `json.load` the file;
`JSONDecodeError` and `FileNotFoundError` both yield the empty mapping. -/
def read_registry : FileContent → Registry
  | .json r => r
  | _ => []

/-- `ReverseSSHRegistry._write_registry` (lines 51-59): `open(path, "w")`
then `json.dump(data_dict, f)` — the file afterwards holds the dumped
mapping (the previous content, whatever it was, is gone). -/
def write_registry (data_dict : Registry) (_disk : FileContent) : FileContent :=
  .json data_dict

/-- `ReverseSSHRegistry.__init__` (lines 19-31): create an empty registry
file when the path does not exist; otherwise leave the file alone. -/
def registry_init (disk : FileContent) : FileContent :=
  match disk with
  | .absent => write_registry [] .absent
  | c => c

/-- Primitive file-system steps performed by a registry write, for the
atomicity analysis of `_write_registry`. -/
inductive FsOp where
  | openTruncate (path : String)
  | jsonDump (path : String) (data : Registry)
  | replaceFile (src dst : String)
deriving DecidableEq

/-- The file-system steps of `_write_registry` (lines 58-59):
`open(self.registry_path, "w")` truncates the file in place, then
`json.dump` writes the serialized mapping into it. -/
def write_registry_trace (path : String) (data : Registry) : List FsOp :=
  [.openTruncate path, .jsonDump path data]

/-- Effect of one file-system step on the registry file at `path`.
A just-truncated file is empty, which `json.load` cannot parse.
`replaceFile` is never emitted by this code; on this single-file view a
replace from a fully-written temp file would install well-formed content,
but no such step exists in the source, so it is modelled as leaving the
file as-is. -/
def applyFsOp (path : String) (c : FileContent) (op : FsOp) : FileContent :=
  match op with
  | .openTruncate p => if p = path then .corrupt else c
  | .jsonDump p d => if p = path then .json d else c
  | .replaceFile _ _ => c

/-- Run a sequence of file-system steps against the file at `path`. -/
def runFs (path : String) (c : FileContent) (ops : List FsOp) : FileContent :=
  ops.foldl (applyFsOp path) c

/-- The registry file path used by the source. -/
def registryPath : String := "/tmp/.reverse-ssh/reverse_ssh.json"

/-- Does the trace truncate the live file in place? -/
def traceTruncatesInPlace (path : String) (ops : List FsOp) : Bool :=
  ops.any fun op =>
    match op with
    | .openTruncate p => p == path
    | _ => false

/-- Does the trace ever perform a write-new-then-replace step? -/
def traceUsesReplace (ops : List FsOp) : Bool :=
  ops.any fun op =>
    match op with
    | .replaceFile _ _ => true
    | _ => false

/-- Is the on-disk file present and parseable JSON? -/
def isWellFormedJson : FileContent → Bool
  | .json _ => true
  | _ => false

/-- A live OS process: pid and full command line (what `pgrep -f` scans). -/
structure Proc where
  pid : Nat
  cmdline : String
deriving DecidableEq

/-- Substring test on character lists (the matching `pgrep -f` performs
against each command line). -/
def hasSubstring (pat : List Char) : List Char → Bool
  | [] => pat.isEmpty
  | c :: rest => pat.isPrefixOf (c :: rest) || hasSubstring pat rest

/-- The f-string pattern the source greps for. -/
def tunnelPattern (bind_port : String) : String := bind_port ++ ":localhost"

/-- `pgrep -f pattern`: pids of every process whose full command line
contains the pattern as a substring. -/
def pgrep (pattern : String) (procs : List Proc) : List Nat :=
  (procs.filter fun p => hasSubstring pattern.toList p.cmdline.toList).map (fun p => p.pid)

/-- `result.stdout.strip()` is truthy iff `pgrep` printed at least one pid. -/
def pgrepAlive (pattern : String) (procs : List Proc) : Bool :=
  !(pgrep pattern procs).isEmpty

/-- `ReverseSSHRegistry.register_tunnel` (lines 63-78): read, set
`data[str(bind_port)]`, write. -/
def register_tunnel (bind_port : Nat) (remote_host remote_user : String)
    (disk : FileContent) : FileContent :=
  write_registry
    (dictInsert (read_registry disk) (toString bind_port) ⟨remote_host, remote_user⟩) disk

/-- Result of `list_tunnel`: the returned mapping, the disk afterwards, and
how many registry writes the call performed. -/
structure ListResult where
  tunnels : Registry
  disk : FileContent
  writes : Nat
deriving DecidableEq

/-- `ReverseSSHRegistry.list_tunnel` (lines 82-118): read the registry,
keep each entry whose `pgrep -f "<port>:localhost"` finds a pid, and
rewrite the file only when the pruned dict differs from the loaded one. -/
def list_tunnel (procs : List Proc) (disk : FileContent) : ListResult :=
  let data := read_registry disk
  let active := data.filter fun e => pgrepAlive (tunnelPattern e.1) procs
  if active = data then ⟨data, disk, 0⟩
  else ⟨active, write_registry active disk, 1⟩

/-- Console events of `kill_tunnel`, in emission order. -/
inductive KillEvent where
  | noProcessFound
  | emptyPidWarning
  | killed (pid : Nat)
  | alreadyGone (pid : Nat)
deriving DecidableEq

/-- Result of `kill_tunnel`: emitted events and the disk afterwards. -/
structure KillResult where
  events : List KillEvent
  disk : FileContent
deriving DecidableEq

/-- `subprocess.run(["pgrep", ...], check=True)`: `pgrep` exits nonzero
when nothing matches, raising `CalledProcessError` (modelled as `.error`). -/
def pgrep_check (pattern : String) (procs : List Proc) : Except Unit (List Nat) :=
  let pids := pgrep pattern procs
  if pids.isEmpty then .error () else .ok pids

/-- The per-pid loop of `kill_tunnel` (lines 150-157): `os.kill` with
`SIGTERM`; a pid that vanished between discovery and signal raises
`ProcessLookupError`, which is caught, and the loop continues. -/
def os_kill_events (vanished : Nat → Bool) (pids : List Nat) : List KillEvent :=
  pids.map fun pid => if vanished pid then .alreadyGone pid else .killed pid

/-- `ReverseSSHRegistry.kill_tunnel` (lines 122-166): read the registry,
`pgrep -f "<port>:localhost"` with `check=True` (the `CalledProcessError`
from a no-match exit is caught and reported), signal each found pid
(individually catching `ProcessLookupError`), then unconditionally delete
the entry and write the registry.  The `if not the_pid` branch is kept
from the source though it is unreachable: `pgrep` exits nonzero whenever
its output would be empty. -/
def kill_tunnel (bind_port : Nat) (procs : List Proc) (vanished : Nat → Bool)
    (disk : FileContent) : KillResult :=
  let data := read_registry disk
  let events :=
    match pgrep_check (tunnelPattern (toString bind_port)) procs with
    | .error _ => [KillEvent.noProcessFound]
    | .ok pids =>
        if pids.isEmpty then [KillEvent.emptyPidWarning]
        else os_kill_events vanished pids
  ⟨events, write_registry (dictErase data (toString bind_port)) disk⟩

/-- `ReverseSSH.push_key` (lines 189-228), remote-state view: the remote
`authorized_keys` as a list of lines.  `grep -Fxq "<key>"` succeeds iff
some line equals the key exactly; on success nothing is pushed, otherwise
`echo "<key>" >> ~/.ssh/authorized_keys` appends one line (a missing
remote file behaves as the empty list, which the append creates). -/
def push_key (public_key : String) (authorized_keys : List String) : List String :=
  if authorized_keys.contains public_key then authorized_keys
  else authorized_keys ++ [public_key]

/-- `ReverseSSH.start_reverse_tunnel` (lines 232-264): run the external
ssh client with `check=True` (`launchExit` is its exit status).  On
success construct a `ReverseSSHRegistry` (its `__init__` creates a missing
file) and register the tunnel; on `CalledProcessError` raise a
`RuntimeError` before the registry is ever constructed, leaving the disk
untouched. -/
def start_reverse_tunnel (launchExit : Nat) (bind_port : Nat)
    (remote_host remote_user : String) (disk : FileContent) :
    Except String Unit × FileContent :=
  if launchExit = 0 then
    (.ok (), register_tunnel bind_port remote_host remote_user (registry_init disk))
  else
    (.error "Reverse SSH tunnel could not be established", disk)

/-- External provisioning commands the orchestrator can spawn (the
process-probe `pgrep` calls are modelled separately, inside the registry
operations). -/
inductive ExtCmd where
  | internetProbe
  | aptUpdate
  | aptInstall
  | systemctlIsActive
  | systemctlEnable
  | sshKeygenList
  | sshKeygenGen
  | sshCheckKey
  | sshPushKey
  | sshTunnelLaunch
deriving DecidableEq

/-- Outcome flags for the external steps of one setup run, plus the live
process list the registry probes see. -/
structure Env where
  internetOk : Bool
  sshdInstalled : Bool
  aptOk : Bool
  sshServiceActive : Bool
  enableOk : Bool
  keyPairPresent : Bool
  fingerprintReadOk : Bool
  fingerprintsMatch : Bool
  keygenOk : Bool
  keyAuthorized : Bool
  pushOk : Bool
  launchOk : Bool
  procs : List Proc

/-- Modelled from the spec: `ReverseSSHLinux.has_internet_connection` is
imported by `main.py` from a module absent from the sources; per the spec
it is a boolean network-reachability precondition probe. -/
def has_internet_connection (env : Env) : Bool := env.internetOk

/-- `ReverseSSH.ensure_ssh_server` (lines 63-114), Linux branch: install
`openssh-server` via apt when `sshd` is missing (`sys.exit(1)` on
failure), then check `systemctl is-active ssh` and enable the service when
inactive (`sys.exit(1)` on failure).  `.error (code, trace)` models
`sys.exit(code)` after the traced commands ran. -/
def ensure_ssh_server (env : Env) : Except (Nat × List ExtCmd) (List ExtCmd) :=
  let install : Except (Nat × List ExtCmd) (List ExtCmd) :=
    if env.sshdInstalled then .ok []
    else if env.aptOk then .ok [ExtCmd.aptUpdate, ExtCmd.aptInstall]
    else .error (1, [ExtCmd.aptUpdate, ExtCmd.aptInstall])
  match install with
  | .error e => .error e
  | .ok tr =>
      if env.sshServiceActive then .ok (tr ++ [ExtCmd.systemctlIsActive])
      else if env.enableOk then
        .ok (tr ++ [ExtCmd.systemctlIsActive, ExtCmd.systemctlEnable])
      else .error (1, tr ++ [ExtCmd.systemctlIsActive, ExtCmd.systemctlEnable])

/-- `ReverseSSH.generate_ssh_key` (lines 155-185) together with
`validate_ssh_key_pair` (lines 118-151): when both key files exist, read
the fingerprints (`RuntimeError` on failure is caught in `generate_ssh_key`
and ends in `sys.exit(1)`); on mismatch or missing files regenerate with
`ssh-keygen`, `sys.exit(1)` when generation fails. -/
def generate_ssh_key (env : Env) : Except (Nat × List ExtCmd) (List ExtCmd) :=
  if env.keyPairPresent then
    if env.fingerprintReadOk then
      if env.fingerprintsMatch then .ok [ExtCmd.sshKeygenList]
      else if env.keygenOk then .ok [ExtCmd.sshKeygenList, ExtCmd.sshKeygenGen]
      else .error (1, [ExtCmd.sshKeygenList, ExtCmd.sshKeygenGen])
    else .error (1, [ExtCmd.sshKeygenList])
  else if env.keygenOk then .ok [ExtCmd.sshKeygenGen]
  else .error (1, [ExtCmd.sshKeygenGen])

/-- Whether `ReverseSSH.push_key` returns normally: either the remote
check finds the key already authorized, or the remote append succeeds.
When both fail the raised exception is caught by `main`'s `except`. -/
def push_key_ok (env : Env) : Bool := env.keyAuthorized || env.pushOk

/-- Commands `push_key` spawns: the remote grep check, then the append
when the key was not yet authorized. -/
def push_key_trace (env : Env) : List ExtCmd :=
  if env.keyAuthorized then [ExtCmd.sshCheckKey]
  else [ExtCmd.sshCheckKey, ExtCmd.sshPushKey]

/-- Accumulator loop of decimal parsing: digits only, else failure. -/
def parseNatAux : List Char → Nat → Option Nat
  | [], acc => some acc
  | c :: rest, acc =>
      if c.isDigit then parseNatAux rest (acc * 10 + (c.toNat - 48)) else none

/-- Python `int(s)` on the nonnegative decimal strings the registry holds
as keys (every key is produced by `str(bind_port)`); the empty string and
non-digit strings fail. -/
def pyInt (s : String) : Option Nat :=
  match s.toList with
  | [] => none
  | cs => parseNatAux cs 0

/-- The bind-port collision pre-check of `main.py` (lines 76-87): compare
`int(bind_port) == int(args.bind_port)` over the reconciled mapping. -/
def conflictsWith (bind_port : Nat) (tunnels : Registry) : Bool :=
  tunnels.any fun e => pyInt e.1 == some bind_port

/-- `main` (`src/main.py`, lines 11-121), Linux branch.  `main.py` calls
`ReverseSSHRegistryLinux` / `ReverseSSHLinux` from modules absent from the
sources; modelled from the spec, their operations are the registry and
client operations embedded above (the spec specifies one registry store
and one orchestrator, and the `ReverseSSH*` classes in the sources
implement exactly those contracts).  Flow: `--list-tunnel` reconciles,
prints and exits 0; `--kill-tunnel` kills each port and exits 0; otherwise
the collision pre-check runs (exit 1 on conflict), then missing
`--host`/`--user` aborts via `parser.error` (exit 2), then the internet
probe (exit 1 when offline), then the try-block: `sys.exit(1)` calls
inside `ensure_ssh_server` / `generate_ssh_key` propagate (SystemExit is
not an `Exception`), while exceptions raised by `push_key` /
`start_reverse_tunnel` are caught, printed, and `main` falls through to a
normal exit 0.  Returns (exit code, spawned provisioning commands, disk). -/
def mainLinux (listFlag : Bool) (killPorts : Option (List Nat)) (bindPort : Nat)
    (hostUserGiven : Bool) (host user : String) (env : Env) (vanished : Nat → Bool)
    (disk : FileContent) : Nat × List ExtCmd × FileContent :=
  if listFlag then
    (0, [], (list_tunnel env.procs (registry_init disk)).disk)
  else
    match killPorts with
    | some ports =>
        (0, [],
          ports.foldl (fun d p => (kill_tunnel p env.procs vanished d).disk)
            (registry_init disk))
    | none =>
        let r := list_tunnel env.procs (registry_init disk)
        if conflictsWith bindPort r.tunnels then
          (1, [], r.disk)
        else if hostUserGiven = false then
          (2, [], r.disk)
        else if has_internet_connection env = false then
          (1, [ExtCmd.internetProbe], r.disk)
        else
          match ensure_ssh_server env with
          | .error (c, tr) => (c, ExtCmd.internetProbe :: tr, r.disk)
          | .ok tr1 =>
            match generate_ssh_key env with
            | .error (c, tr2) => (c, ExtCmd.internetProbe :: (tr1 ++ tr2), r.disk)
            | .ok tr2 =>
              if push_key_ok env then
                if env.launchOk then
                  (0, ExtCmd.internetProbe ::
                        (tr1 ++ tr2 ++ push_key_trace env ++ [ExtCmd.sshTunnelLaunch]),
                    register_tunnel bindPort host user (registry_init r.disk))
                else
                  (0, ExtCmd.internetProbe ::
                        (tr1 ++ tr2 ++ push_key_trace env ++ [ExtCmd.sshTunnelLaunch]),
                    r.disk)
              else
                (0, ExtCmd.internetProbe :: (tr1 ++ tr2 ++ push_key_trace env), r.disk)

/-! ## Helper lemmas -/

/-- Deleting a key from the registry dict makes lookups of that key fail. -/
theorem dictGet_dictErase (r : Registry) (k : String) :
    dictGet (dictErase r k) k = none := by
  have h : List.find? (fun e => e.1 == k) (dictErase r k) = none := by
    rw [List.find?_eq_none]
    intro e he
    have h2 : e.1 ≠ k := by
      have hb := (List.mem_filter.mp he).2
      exact bne_iff_ne.mp hb
    simp [beq_iff_eq, h2]
  simp [dictGet, h]

/-! ## Claim theorems -/

/-- C1, counterexample: `_write_registry` truncates the live registry file
in place (`open(path, "w")`) and performs no write-new-then-replace step,
already on the write of the empty registry. -/
theorem c1_counterexample :
    traceTruncatesInPlace registryPath (write_registry_trace registryPath []) = true
    ∧ traceUsesReplace (write_registry_trace registryPath []) = false := by
  constructor <;> rfl

/-- C1, amended: every registry-mutating operation writes through
`_write_registry`, which truncates the registry file in place and then
dumps the JSON — there is no write-new-then-replace step.  After a
completed write the file holds well-formed JSON of the written mapping
(so after any completed operation the file exists and parses), but the
intermediate state right after truncation is an unparsable file. -/
theorem c1_amended (path : String) (d : Registry) (c disk : FileContent)
    (bp p : Nat) (host user : String) (procs : List Proc) (van : Nat → Bool) :
    runFs path c (write_registry_trace path d) = FileContent.json d
    ∧ traceTruncatesInPlace path (write_registry_trace path d) = true
    ∧ traceUsesReplace (write_registry_trace path d) = false
    ∧ runFs path c [FsOp.openTruncate path] = FileContent.corrupt
    ∧ isWellFormedJson (register_tunnel bp host user disk) = true
    ∧ isWellFormedJson (kill_tunnel p procs van disk).disk = true
    ∧ isWellFormedJson (registry_init FileContent.absent) = true := by
  refine ⟨?_, ?_, rfl, ?_, rfl, rfl, rfl⟩
  · simp [runFs, write_registry_trace, applyFsOp]
  · simp [traceTruncatesInPlace, write_registry_trace]
  · simp [runFs, applyFsOp]

/-- C2, counterexample: on a corrupted (unparsable) registry file, Load
returns the empty mapping and Reconcile returns the empty mapping, but no
valid empty registry file is recreated — construction leaves the existing
file alone and `list_tunnel` takes the no-write branch, so afterward the
on-disk file is still unparsable. -/
theorem c2_counterexample :
    read_registry FileContent.corrupt = []
    ∧ registry_init FileContent.corrupt = FileContent.corrupt
    ∧ (list_tunnel [] FileContent.corrupt).tunnels = []
    ∧ (list_tunnel [] FileContent.corrupt).disk = FileContent.corrupt
    ∧ isWellFormedJson (list_tunnel [] FileContent.corrupt).disk = false := by
  refine ⟨rfl, rfl, rfl, rfl, rfl⟩

/-- C2, amended: with the registry file missing or unparsable, Load
(`_read_registry`) and Reconcile (`list_tunnel`) return the empty mapping
without failing the caller.  A missing file is recreated as a valid empty
registry only at store construction (`__init__`), after which a valid
empty file is indeed on disk; a corrupted file is not rewritten by Load or
Reconcile and remains on disk until the next mutating write. -/
theorem c2_amended (procs : List Proc) :
    read_registry FileContent.absent = []
    ∧ read_registry FileContent.corrupt = []
    ∧ (list_tunnel procs FileContent.absent).tunnels = []
    ∧ (list_tunnel procs FileContent.corrupt).tunnels = []
    ∧ registry_init FileContent.absent = FileContent.json []
    ∧ (list_tunnel procs (registry_init FileContent.absent)).tunnels = []
    ∧ (list_tunnel procs (registry_init FileContent.absent)).disk = FileContent.json []
    ∧ (list_tunnel procs FileContent.corrupt).disk = FileContent.corrupt := by
  refine ⟨rfl, rfl, rfl, rfl, rfl, rfl, rfl, rfl⟩

/-- C4: after `kill_tunnel(p)` the registry on disk contains no entry
keyed by `p`, whatever the process list, the lookup outcome, and whether
`p` was registered — the entry removal and the final write are
unconditional. -/
theorem c4_kill_removes_entry (bind_port : Nat) (procs : List Proc)
    (vanished : Nat → Bool) (disk : FileContent) :
    dictGet (read_registry (kill_tunnel bind_port procs vanished disk).disk)
      (toString bind_port) = none := by
  show dictGet (dictErase (read_registry disk) (toString bind_port))
      (toString bind_port) = none
  exact dictGet_dictErase _ _

/-- C8: the remote-authorization step is idempotent on the remote
`authorized_keys` state — pushing the same public key twice equals pushing
it once, because the second run's `grep -Fxq` check finds the key. -/
theorem c8_push_key_idempotent (public_key : String) (authorized_keys : List String) :
    push_key public_key (push_key public_key authorized_keys)
      = push_key public_key authorized_keys := by
  by_cases h : public_key ∈ authorized_keys <;> simp [push_key, h]

/-- A list is a prefix of itself extended by anything. -/
theorem isPrefixOf_append_self (p rest : List Char) :
    p.isPrefixOf (p ++ rest) = true := by
  induction p with
  | nil => simp [List.isPrefixOf]
  | cons c cs ih => simp [List.isPrefixOf, ih]

/-- `hasSubstring` finds the pattern at the start of the text. -/
theorem hasSubstring_self_append (pat post : List Char) :
    hasSubstring pat (pat ++ post) = true := by
  cases hp : pat ++ post with
  | nil =>
    have hn : pat = [] := (List.append_eq_nil.mp hp).1
    simp [hasSubstring, hn]
  | cons c rest =>
    have h1 : pat.isPrefixOf (pat ++ post) = true := isPrefixOf_append_self pat post
    rw [hp] at h1
    show (pat.isPrefixOf (c :: rest) || hasSubstring pat rest) = true
    rw [h1]
    simp

/-- `hasSubstring` finds the pattern anywhere in the text. -/
theorem hasSubstring_append (pre pat post : List Char) :
    hasSubstring pat (pre ++ (pat ++ post)) = true := by
  induction pre with
  | nil => simpa using hasSubstring_self_append pat post
  | cons c cs ih =>
    show (pat.isPrefixOf (c :: (cs ++ (pat ++ post)))
      || hasSubstring pat (cs ++ (pat ++ post))) = true
    rw [ih]
    simp

/-- A process whose command line contains the pattern is listed by `pgrep`. -/
theorem pid_mem_pgrep (pattern : String) (procs : List Proc) (pid : Nat) (cmd : String)
    (hproc : (⟨pid, cmd⟩ : Proc) ∈ procs)
    (hmatch : hasSubstring pattern.toList cmd.toList = true) :
    pid ∈ pgrep pattern procs :=
  List.mem_map.mpr ⟨⟨pid, cmd⟩, List.mem_filter.mpr ⟨hproc, hmatch⟩, rfl⟩

/-- A nonempty `pgrep` result makes the liveness probe true. -/
theorem pgrepAlive_of_mem (pattern : String) (procs : List Proc) (pid : Nat)
    (h : pid ∈ pgrep pattern procs) :
    pgrepAlive pattern procs = true := by
  unfold pgrepAlive
  cases hp : pgrep pattern procs with
  | nil => rw [hp] at h; cases h
  | cons a l => rfl

/-- Every pid that `pgrep` reports and that has not vanished by signal time
is sent SIGTERM by `kill_tunnel` (a `killed` event is emitted for it). -/
theorem killed_mem_of_mem_pgrep (bind_port : Nat) (procs : List Proc)
    (vanished : Nat → Bool) (disk : FileContent) (pid : Nat)
    (hm : pid ∈ pgrep (tunnelPattern (toString bind_port)) procs)
    (hv : vanished pid = false) :
    KillEvent.killed pid ∈ (kill_tunnel bind_port procs vanished disk).events := by
  have hne : (pgrep (tunnelPattern (toString bind_port)) procs).isEmpty = false := by
    cases hp : pgrep (tunnelPattern (toString bind_port)) procs with
    | nil => rw [hp] at hm; cases hm
    | cons a l => rfl
  simp only [kill_tunnel, pgrep_check, hne, Bool.false_eq_true, if_false,
    os_kill_events]
  exact List.mem_map.mpr ⟨pid, hm, by simp [hv]⟩

/-- C3: when the external ssh client exits nonzero,
`start_reverse_tunnel` raises (the registry is never even constructed),
the disk is unchanged, and an entry absent for that bind port before the
failed launch is still absent after it. -/
theorem c3_no_orphan_on_launch_failure (launchExit bind_port : Nat)
    (remote_host remote_user : String) (disk : FileContent)
    (h : launchExit ≠ 0) :
    (start_reverse_tunnel launchExit bind_port remote_host remote_user disk).1
        = Except.error "Reverse SSH tunnel could not be established"
    ∧ (start_reverse_tunnel launchExit bind_port remote_host remote_user disk).2 = disk
    ∧ (dictGet (read_registry disk) (toString bind_port) = none →
        dictGet (read_registry
          (start_reverse_tunnel launchExit bind_port remote_host remote_user disk).2)
          (toString bind_port) = none) := by
  simp [start_reverse_tunnel, h]

/-- C3 witness: a concrete failed launch (exit status 1) on an empty
registry errors out and leaves port 9000 unregistered. -/
theorem c3_witness :
    (start_reverse_tunnel 1 9000 "h.example" "alice" (FileContent.json [])).2
        = FileContent.json []
    ∧ dictGet (read_registry (start_reverse_tunnel 1 9000 "h.example" "alice"
        (FileContent.json [])).2) (toString 9000) = none := by
  have h := c3_no_orphan_on_launch_failure 1 9000 "h.example" "alice"
    (FileContent.json []) (by decide)
  exact ⟨h.2.1, h.2.2 (by decide)⟩

/-- C6: with an unchanged process list, running `list_tunnel` twice in a
row returns the same mapping both times and performs at most one registry
write across the two calls (the second call always takes the no-write
branch because pruning is a filter, hence idempotent). -/
theorem c6_reconcile_idempotent (procs : List Proc) (disk : FileContent) :
    (list_tunnel procs disk).tunnels
        = (list_tunnel procs (list_tunnel procs disk).disk).tunnels
    ∧ (list_tunnel procs disk).writes
        + (list_tunnel procs (list_tunnel procs disk).disk).writes ≤ 1 := by
  by_cases h :
      (read_registry disk).filter (fun e => pgrepAlive (tunnelPattern e.1) procs)
        = read_registry disk
  · constructor
    · simp [list_tunnel, h]
    · simp [list_tunnel, h]
  · have h1 : list_tunnel procs disk
        = ⟨(read_registry disk).filter (fun e => pgrepAlive (tunnelPattern e.1) procs),
           write_registry ((read_registry disk).filter
             (fun e => pgrepAlive (tunnelPattern e.1) procs)) disk, 1⟩ := by
      simp [list_tunnel, h]
    have hidem : ((read_registry disk).filter
        (fun e => pgrepAlive (tunnelPattern e.1) procs)).filter
          (fun e => pgrepAlive (tunnelPattern e.1) procs)
        = (read_registry disk).filter (fun e => pgrepAlive (tunnelPattern e.1) procs) :=
      List.filter_eq_self.mpr (fun a ha => (List.mem_filter.mp ha).2)
    rw [h1]
    constructor
    · simp [list_tunnel, write_registry, read_registry, hidem]
    · simp [list_tunnel, write_registry, read_registry, hidem]

/-- Character-list view of string concatenation. -/
theorem toList_append_eq (a b : String) : (a ++ b).toList = a.toList ++ b.toList :=
  String.data_append a b

/-- C5: a Setup invocation whose bind port maps to a live record after
reconciliation exits with the conflict code 1 before any external
provisioning command (server check, key generation, key push, tunnel
launch) is spawned, and the disk holds exactly the reconciled mapping
(the only change is reconciliation pruning). -/
theorem c5_conflict_aborts (bindPort : Nat) (hostUserGiven : Bool)
    (host user : String) (env : Env) (vanished : Nat → Bool) (disk : FileContent)
    (h : conflictsWith bindPort
      (list_tunnel env.procs (registry_init disk)).tunnels = true) :
    mainLinux false none bindPort hostUserGiven host user env vanished disk
      = (1, ([] : List ExtCmd), (list_tunnel env.procs (registry_init disk)).disk) := by
  simp [mainLinux, h]

/-- C5 witness: port 9000 is registered and its tunnel process is live, so
the setup run for 9000 exits 1 with no provisioning command spawned. -/
theorem c5_witness :
    mainLinux false none 9000 true "h.example" "alice"
      { internetOk := true, sshdInstalled := true, aptOk := true,
        sshServiceActive := true, enableOk := true, keyPairPresent := true,
        fingerprintReadOk := true, fingerprintsMatch := true, keygenOk := true,
        keyAuthorized := true, pushOk := true, launchOk := true,
        procs := [⟨42, "ssh -fNR 9000:localhost:1632 alice@h.example -p 1248"⟩] }
      (fun _ => false) (FileContent.json [("9000", ⟨"h.example", "alice"⟩)])
      = (1, ([] : List ExtCmd),
         (list_tunnel [⟨42, "ssh -fNR 9000:localhost:1632 alice@h.example -p 1248"⟩]
           (registry_init (FileContent.json [("9000", ⟨"h.example", "alice"⟩)]))).disk) :=
  c5_conflict_aborts 9000 true "h.example" "alice"
    { internetOk := true, sshdInstalled := true, aptOk := true,
      sshServiceActive := true, enableOk := true, keyPairPresent := true,
      fingerprintReadOk := true, fingerprintsMatch := true, keygenOk := true,
      keyAuthorized := true, pushOk := true, launchOk := true,
      procs := [⟨42, "ssh -fNR 9000:localhost:1632 alice@h.example -p 1248"⟩] }
    (fun _ => false) (FileContent.json [("9000", ⟨"h.example", "alice"⟩)]) (by decide)

/-- C9: `kill_tunnel` completes without a fatal error whether or not a
target process exists — when `pgrep` finds nothing, the `CalledProcessError`
is caught and reported as a warning event; a pid that vanishes before the
signal does not stop the remaining pids from being signalled; and the CLI
kill path always exits 0. -/
theorem c9_kill_absent_is_success (bind_port : Nat) (procs : List Proc)
    (vanished : Nat → Bool) (disk : FileContent) (env : Env) (ps : List Nat)
    (hostUserGiven : Bool) (host user : String) :
    (pgrep (tunnelPattern (toString bind_port)) procs = [] →
      (kill_tunnel bind_port procs vanished disk).events = [KillEvent.noProcessFound])
    ∧ (∀ pid, pid ∈ pgrep (tunnelPattern (toString bind_port)) procs →
        vanished pid = false →
        KillEvent.killed pid ∈ (kill_tunnel bind_port procs vanished disk).events)
    ∧ (mainLinux false (some ps) bind_port hostUserGiven host user env vanished disk).1
        = 0 := by
  refine ⟨?_, ?_, ?_⟩
  · intro h
    simp [kill_tunnel, pgrep_check, h]
  · intro pid hm hv
    exact killed_mem_of_mem_pgrep bind_port procs vanished disk pid hm hv
  · simp [mainLinux]

/-- C9 witness: pid 5 is a live match for port 9000 and pid 7 (checked by
the vanish predicate) is irrelevant; the signal for pid 5 is emitted. -/
theorem c9_witness :
    KillEvent.killed 5 ∈ (kill_tunnel 9000
      [⟨5, "ssh -fNR 9000:localhost:22 alice@h.example"⟩]
      (fun p => decide (p = 7)) (FileContent.json [])).events :=
  (c9_kill_absent_is_success 9000
      [⟨5, "ssh -fNR 9000:localhost:22 alice@h.example"⟩]
      (fun p => decide (p = 7)) (FileContent.json [])
      { internetOk := true, sshdInstalled := true, aptOk := true,
        sshServiceActive := true, enableOk := true, keyPairPresent := true,
        fingerprintReadOk := true, fingerprintsMatch := true, keygenOk := true,
        keyAuthorized := true, pushOk := true, launchOk := true, procs := [] }
      [] true "h.example" "alice").2.1 5 (by decide) (by decide)

/-- C10: liveness and termination match `"<port>:localhost"` as a
substring of full command lines, so when the digits of one port are a
suffix of another's (9000 and 19000), a live tunnel on the longer port
makes the shorter port count as alive in `list_tunnel` (its entry
survives pruning) and `kill_tunnel` on the shorter port signals the
longer port's process. -/
theorem c10_pattern_collision (pShort pLong : Nat) (t pre post : List Char)
    (cmd : String) (pid : Nat) (tmeta : TunnelMeta) (procs : List Proc)
    (vanished : Nat → Bool) (disk : FileContent)
    (hsplit : (toString pLong).toList = t ++ (toString pShort).toList)
    (hcmd : cmd.toList = pre ++ (toString pLong).toList
        ++ (":localhost").toList ++ post)
    (hproc : (⟨pid, cmd⟩ : Proc) ∈ procs) :
    pgrepAlive (tunnelPattern (toString pShort)) procs = true
    ∧ ((toString pShort, tmeta) ∈ read_registry disk →
        (toString pShort, tmeta) ∈ (list_tunnel procs disk).tunnels)
    ∧ (vanished pid = false →
        KillEvent.killed pid ∈ (kill_tunnel pShort procs vanished disk).events) := by
  have hpl : (tunnelPattern (toString pShort)).toList
      = (toString pShort).toList ++ (":localhost").toList :=
    toList_append_eq (toString pShort) ":localhost"
  have hmatch : hasSubstring (tunnelPattern (toString pShort)).toList cmd.toList
      = true := by
    rw [hpl, hcmd, hsplit]
    have h := hasSubstring_append (pre ++ t)
      ((toString pShort).toList ++ (":localhost").toList) post
    simpa [List.append_assoc] using h
  have hmem : pid ∈ pgrep (tunnelPattern (toString pShort)) procs :=
    pid_mem_pgrep _ procs pid cmd hproc hmatch
  have halive : pgrepAlive (tunnelPattern (toString pShort)) procs = true :=
    pgrepAlive_of_mem _ procs pid hmem
  refine ⟨halive, ?_, ?_⟩
  · intro hin
    have hact : (toString pShort, tmeta) ∈
        (read_registry disk).filter (fun e => pgrepAlive (tunnelPattern e.1) procs) :=
      List.mem_filter.mpr ⟨hin, halive⟩
    by_cases h : (read_registry disk).filter
        (fun e => pgrepAlive (tunnelPattern e.1) procs) = read_registry disk
    · simpa [list_tunnel, h] using hin
    · simpa [list_tunnel, h] using hact
  · intro hv
    exact killed_mem_of_mem_pgrep pShort procs vanished disk pid hmem hv

/-- C10 witness: a live tunnel on 19000 makes the registry entry for 9000
survive reconciliation and gets its process signalled by a kill of 9000. -/
theorem c10_witness :
    pgrepAlive (tunnelPattern (toString 9000))
      [⟨77, "ssh -fNR 19000:localhost:1632 alice@h.example -p 1248"⟩] = true
    ∧ (toString 9000, (⟨"h.example", "alice"⟩ : TunnelMeta)) ∈
        (list_tunnel [⟨77, "ssh -fNR 19000:localhost:1632 alice@h.example -p 1248"⟩]
          (FileContent.json [("9000", ⟨"h.example", "alice"⟩)])).tunnels
    ∧ KillEvent.killed 77 ∈ (kill_tunnel 9000
        [⟨77, "ssh -fNR 19000:localhost:1632 alice@h.example -p 1248"⟩]
        (fun _ => false) (FileContent.json [("9000", ⟨"h.example", "alice"⟩)])).events := by
  have h := c10_pattern_collision 9000 19000 ['1']
    "ssh -fNR ".toList ":1632 alice@h.example -p 1248".toList
    "ssh -fNR 19000:localhost:1632 alice@h.example -p 1248" 77
    ⟨"h.example", "alice"⟩
    [⟨77, "ssh -fNR 19000:localhost:1632 alice@h.example -p 1248"⟩]
    (fun _ => false) (FileContent.json [("9000", ⟨"h.example", "alice"⟩)])
    (by decide) (by decide) (by decide)
  exact ⟨h.1, h.2.1 (by decide), h.2.2 rfl⟩

/-- C7, counterexample: with every precondition satisfied but the tunnel
launch failing, `main` catches the raised error, prints it, and falls
through to a normal exit — the process exit code is 0, not 1. -/
theorem c7_counterexample :
    (mainLinux false none 8421 true "h.example" "alice"
      { internetOk := true, sshdInstalled := true, aptOk := true,
        sshServiceActive := true, enableOk := true, keyPairPresent := true,
        fingerprintReadOk := true, fingerprintsMatch := true, keygenOk := true,
        keyAuthorized := true, pushOk := true, launchOk := false, procs := [] }
      (fun _ => false) (FileContent.json [])).1 = 0
    ∧ (mainLinux false none 8421 true "h.example" "alice"
      { internetOk := true, sshdInstalled := true, aptOk := true,
        sshServiceActive := true, enableOk := true, keyPairPresent := true,
        fingerprintReadOk := true, fingerprintsMatch := true, keygenOk := true,
        keyAuthorized := true, pushOk := true, launchOk := false, procs := [] }
      (fun _ => false) (FileContent.json [])).1 ≠ 1 := by
  constructor
  · decide
  · decide

/-- C7, amended: precondition failures and port collisions exit 1 —
missing internet, SSH-server install/enable failure (the `sys.exit(1)`
calls inside `ensure_ssh_server`), and key-material failures (the
`sys.exit(1)` calls inside `generate_ssh_key`) — and listing, killing and
a fully successful setup exit 0; but remote key-push failures and tunnel
launch failures raise exceptions that `main` catches and prints, so those
fatal setup failures make the process exit 0, not 1. -/
theorem c7_amended (bp : Nat) (host user : String) (env : Env) (van : Nat → Bool)
    (disk : FileContent) (ps : List Nat)
    (hnc : conflictsWith bp
      (list_tunnel env.procs (registry_init disk)).tunnels = false) :
    (mainLinux true none bp true host user env van disk).1 = 0
    ∧ (mainLinux false (some ps) bp true host user env van disk).1 = 0
    ∧ (env.internetOk = false →
        (mainLinux false none bp true host user env van disk).1 = 1)
    ∧ (∀ tr, env.internetOk = true → ensure_ssh_server env = .error (1, tr) →
        (mainLinux false none bp true host user env van disk).1 = 1)
    ∧ (∀ tr1 tr2, env.internetOk = true → ensure_ssh_server env = .ok tr1 →
        generate_ssh_key env = .error (1, tr2) →
        (mainLinux false none bp true host user env van disk).1 = 1)
    ∧ (∀ tr1 tr2, env.internetOk = true → ensure_ssh_server env = .ok tr1 →
        generate_ssh_key env = .ok tr2 → push_key_ok env = false →
        (mainLinux false none bp true host user env van disk).1 = 0)
    ∧ (∀ tr1 tr2, env.internetOk = true → ensure_ssh_server env = .ok tr1 →
        generate_ssh_key env = .ok tr2 → push_key_ok env = true →
        env.launchOk = false →
        (mainLinux false none bp true host user env van disk).1 = 0)
    ∧ (∀ tr1 tr2, env.internetOk = true → ensure_ssh_server env = .ok tr1 →
        generate_ssh_key env = .ok tr2 → push_key_ok env = true →
        env.launchOk = true →
        (mainLinux false none bp true host user env van disk).1 = 0) := by
  refine ⟨?_, ?_, ?_, ?_, ?_, ?_, ?_, ?_⟩
  · simp [mainLinux]
  · simp [mainLinux]
  · intro hi
    simp [mainLinux, hnc, has_internet_connection, hi]
  · intro tr hi he
    simp [mainLinux, hnc, has_internet_connection, hi, he]
  · intro tr1 tr2 hi he hg
    simp [mainLinux, hnc, has_internet_connection, hi, he, hg]
  · intro tr1 tr2 hi he hg hp
    simp [mainLinux, hnc, has_internet_connection, hi, he, hg, hp]
  · intro tr1 tr2 hi he hg hp hl
    simp [mainLinux, hnc, has_internet_connection, hi, he, hg, hp, hl]
  · intro tr1 tr2 hi he hg hp hl
    simp [mainLinux, hnc, has_internet_connection, hi, he, hg, hp, hl]

/-- C7 witness: a setup run with no internet connection exits 1. -/
theorem c7_witness :
    (mainLinux false none 8421 true "h.example" "alice"
      { internetOk := false, sshdInstalled := true, aptOk := true,
        sshServiceActive := true, enableOk := true, keyPairPresent := true,
        fingerprintReadOk := true, fingerprintsMatch := true, keygenOk := true,
        keyAuthorized := true, pushOk := true, launchOk := true, procs := [] }
      (fun _ => false) (FileContent.json [])).1 = 1 :=
  (c7_amended 8421 "h.example" "alice"
    { internetOk := false, sshdInstalled := true, aptOk := true,
      sshServiceActive := true, enableOk := true, keyPairPresent := true,
      fingerprintReadOk := true, fingerprintsMatch := true, keygenOk := true,
      keyAuthorized := true, pushOk := true, launchOk := true, procs := [] }
    (fun _ => false) (FileContent.json []) [] (by decide)).2.2.1 rfl
